import Mathlib

/-!
Verification of the candlestick pattern-detection and indicator core of
`app.py` (trading-chart analyzer).

`detect_doji` and `detect_bullish_engulfing` are pure elementwise pandas
arithmetic over OHLC price bars and vectorize soundly; we embed them over
`ℚ` (exact rational arithmetic standing in for the source's real-number
formulas), with `bool.astype(int) * 100` becoming the `...Signal` functions.
`detect_bullish_engulfing` uses `shift(1)`, whose first element is NaN,
making every comparison on bar 0 false; we embed it as a function of the bar
list and an index.

`detect_hammer` and `detect_shooting_star`, however, do NOT vectorize: they
use Python's builtin `min`/`max` (app.py lines 21-22, 29-30) and the boolean
operator `and` (lines 23, 31) on whole pandas Series, and both of those call
`Series.__bool__`, which pandas raises on unconditionally
(`ValueError: The truth value of a Series is ambiguous`).  Since the call
sites at lines 81-82 pass the whole `data['Open']`, ..., columns, line 81
raises on every reachable input (the code path requires ≥ 50 bars, line 65),
and lines 82-83 never run.  We embed those two detectors and the pattern
block of lines 80-83 in the `Except` monad so the error path is explicit.
-/

namespace TradingChart

/-- One OHLC price bar (spec §3 PriceBar; volume and timestamp are irrelevant
to the pattern detectors and omitted). -/
structure Bar where
  open_ : ℚ
  high : ℚ
  low : ℚ
  close : ℚ

/-- Spec §3 invariant on a bar: `low ≤ min(open, close) ≤ max(open, close) ≤ high`. -/
def barValid (b : Bar) : Prop :=
  b.low ≤ min b.open_ b.close ∧ max b.open_ b.close ≤ b.high

instance (b : Bar) : Decidable (barValid b) := by
  unfold barValid; infer_instance

/-- `detect_doji` from app.py lines 11-15: body very small compared to range. -/
def detect_doji (open_ high low close : ℚ) (tolerance : ℚ) : Bool :=
  let body := |open_ - close|
  let range_ := high - low
  decide (body ≤ tolerance * range_)

/-- The message of the ValueError that pandas `Series.__bool__`
(`NDFrame.__nonzero__`) raises. -/
def seriesBoolMsg : String :=
  "ValueError: The truth value of a Series is ambiguous."

/-- Pandas `Series.__bool__`: it raises ValueError unconditionally, whatever
the series holds (that is its entire definition in pandas; the series
argument is never inspected). -/
def seriesBool (s : List Bool) : Except String Bool :=
  Except.error seriesBoolMsg

/-- Python's builtin `min(a, b)` applied to two pandas Series (app.py lines
21 and 30): it decides which argument to return by evaluating `bool(b < a)`
— an elementwise comparison Series fed to `Series.__bool__`, which raises. -/
def builtin_min (a b : List ℚ) : Except String (List ℚ) := do
  let c ← seriesBool (List.zipWith (fun x y => decide (x < y)) b a)
  pure (if c then b else a)

/-- Python's builtin `max(a, b)` applied to two pandas Series (app.py lines
22 and 29): it decides by `bool(b > a)`, which raises for the same reason. -/
def builtin_max (a b : List ℚ) : Except String (List ℚ) := do
  let c ← seriesBool (List.zipWith (fun x y => decide (x > y)) b a)
  pure (if c then b else a)

/-- Python's `and` between two boolean Series (app.py lines 23 and 31): it
evaluates `bool(left)` — returning `left` when falsy and `right` otherwise —
and `Series.__bool__` raises. -/
def py_and (a b : List Bool) : Except String (List Bool) := do
  let c ← seriesBool a
  pure (if c then b else a)

/-- `detect_hammer` from app.py lines 17-23, as the call at line 81 actually
executes it — on whole price Series.  Lines 19-20 (`body`, `range_`) are
elementwise and succeed; line 21 `min(open_, close)` is Python's builtin
`min` on two Series and raises ValueError (lines 22-23 would raise
likewise). -/
def detect_hammer (open_ high low close : List ℚ) :
    Except String (List Bool) := do
  let body := List.zipWith (fun x y => |x - y|) open_ close
  let range_ := List.zipWith (fun x y => x - y) high low
  let mn ← builtin_min open_ close
  let lower_shadow := List.zipWith (fun x y => x - y) mn low
  let mx ← builtin_max open_ close
  let upper_shadow := List.zipWith (fun x y => x - y) high mx
  let c1 := List.zipWith (fun ls b => decide (ls ≥ 2 * b)) lower_shadow body
  let c2 := List.zipWith (fun us b => decide (us ≤ b)) upper_shadow body
  let c3 := List.zipWith (fun b r => decide (b ≤ 0.3 * r)) body range_
  let c12 ← py_and c1 c2
  py_and c12 c3

/-- `detect_shooting_star` from app.py lines 25-31, as the call at line 82
would execute it — on whole price Series.  Line 29 `max(open_, close)` is
Python's builtin `max` on two Series and raises ValueError (lines 30-31
would raise likewise). -/
def detect_shooting_star (open_ high low close : List ℚ) :
    Except String (List Bool) := do
  let body := List.zipWith (fun x y => |x - y|) open_ close
  let range_ := List.zipWith (fun x y => x - y) high low
  let mx ← builtin_max open_ close
  let upper_shadow := List.zipWith (fun x y => x - y) high mx
  let mn ← builtin_min open_ close
  let lower_shadow := List.zipWith (fun x y => x - y) mn low
  let c1 := List.zipWith (fun us b => decide (us ≥ 2 * b)) upper_shadow body
  let c2 := List.zipWith (fun ls b => decide (ls ≤ b)) lower_shadow body
  let c3 := List.zipWith (fun b r => decide (b ≤ 0.3 * r)) body range_
  let c12 ← py_and c1 c2
  py_and c12 c3

/-- The two-bar condition of `detect_bullish_engulfing` (app.py lines 36-41)
on a (previous bar, current bar) pair: the four `&`-ed comparisons. -/
def engulf_pair (prev cur : Bar) : Bool :=
  decide (prev.close < prev.open_) && decide (cur.close > cur.open_) &&
    decide (cur.open_ < prev.close) && decide (cur.close > prev.open_)

/-- The engulfing condition lifted to optional bars: absent bars (the
NaN-shifted predecessor of index 0, or an out-of-range index) make every
comparison false. -/
def engulf_step (prevOpt curOpt : Option Bar) : Bool :=
  match prevOpt, curOpt with
  | some prev, some cur => engulf_pair prev cur
  | _, _ => false

/-- `detect_bullish_engulfing` from app.py lines 33-42, read at index `k` of
the series: `shift(1)` makes the previous bar of index 0 NaN, and every
comparison against NaN is false, so index 0 (and any out-of-range index)
yields `false`. -/
def detect_bullish_engulfing (bars : List Bar) : ℕ → Bool
  | 0 => false
  | j + 1 => engulf_step bars[j]? bars[j + 1]?

/-- app.py line 80: `data['Doji'] = detect_doji(...).astype(int) * 100`
(the call site uses the default `tolerance=0.1`). -/
def dojiSignal (b : Bar) : ℤ :=
  (if detect_doji b.open_ b.high b.low b.close 0.1 then 1 else 0) * 100

/-- app.py line 81: `data['Hammer'] = detect_hammer(...).astype(int) * 100`.
The `.astype(int) * 100` never runs: the ValueError from `detect_hammer`
propagates. -/
def hammerColumn (open_ high low close : List ℚ) : Except String (List ℤ) := do
  let bs ← detect_hammer open_ high low close
  pure (bs.map fun x => (if x then 1 else 0) * 100)

/-- app.py line 82:
`data['ShootingStar'] = detect_shooting_star(...).astype(int) * (-100)`;
the ValueError from `detect_shooting_star` propagates (and line 82 is in any
case never reached, line 81 having raised). -/
def shootingStarColumn (open_ high low close : List ℚ) :
    Except String (List ℤ) := do
  let bs ← detect_shooting_star open_ high low close
  pure (bs.map fun x => (if x then 1 else 0) * (-100))

/-- app.py line 83:
`data['Engulfing'] = detect_bullish_engulfing(...).astype(int) * 100`. -/
def engulfSignal (bars : List Bar) (k : ℕ) : ℤ :=
  (if detect_bullish_engulfing bars k then 1 else 0) * 100

/-- The four pattern columns app.py lines 80-83 try to assign. -/
structure PatternColumns where
  doji : List ℤ
  hammer : List ℤ
  shootingStar : List ℤ
  engulfing : List ℤ

/-- app.py lines 80-83 in execution order: the Doji column (line 80,
elementwise, succeeds and is assigned), then the Hammer assignment (line
81), which raises ValueError before the ShootingStar (line 82) and Engulfing
(line 83) assignments run. -/
def patternColumns (bars : List Bar) : Except String PatternColumns := do
  let doji := bars.map dojiSignal
  let hammer ← hammerColumn (bars.map Bar.open_) (bars.map Bar.high)
    (bars.map Bar.low) (bars.map Bar.close)
  let star ← shootingStarColumn (bars.map Bar.open_) (bars.map Bar.high)
    (bars.map Bar.low) (bars.map Bar.close)
  let engulfing := (List.range bars.length).map (engulfSignal bars)
  pure ⟨doji, hammer, star, engulfing⟩

/-!
Bollinger Bands.  app.py lines 74-77 call the external `ta` library:
`BollingerBands(close=data['Close'], window=20, window_dev=2)` and read off
`bollinger_hband` / `bollinger_mavg` / `bollinger_lband`.  That library is
not part of this repository, so the three series are modelled from the spec.
-/

/-- Modelled from the spec: the rolling window of the last 20 closes ending at
index `i` (the `ta` library's `BollingerBands` implementation is not in the
repository).  Defined (full-length) exactly when `19 ≤ i < closes.length`. -/
def bbWindow (closes : List ℚ) (i : ℕ) : List ℚ :=
  (closes.drop (i + 1 - 20)).take 20

/-- Modelled from the spec: `middle = simple moving average over window`
(window = 20 at the app.py call site). -/
def BB_middle (closes : List ℚ) (i : ℕ) : ℚ :=
  (bbWindow closes i).sum / 20

/-- Modelled from the spec: rolling population variance of the 20-bar window
(mean of squared deviations from the window mean). -/
def BB_variance (closes : List ℚ) (i : ℕ) : ℚ :=
  ((bbWindow closes i).map fun x => (x - BB_middle closes i) ^ 2).sum / 20

/-- Modelled from the spec: rolling population standard deviation, the square
root of the population variance. -/
noncomputable def BB_std (closes : List ℚ) (i : ℕ) : ℝ :=
  Real.sqrt (BB_variance closes i)

/-- Modelled from the spec: `upper = middle + numStdDev × std` with
`numStdDev = 2` (app.py line 74 passes `window_dev=2`). -/
noncomputable def BB_upper (closes : List ℚ) (i : ℕ) : ℝ :=
  (BB_middle closes i : ℝ) + 2 * BB_std closes i

/-- Modelled from the spec: `lower = middle - numStdDev × std` with
`numStdDev = 2`. -/
noncomputable def BB_lower (closes : List ℚ) (i : ℕ) : ℝ :=
  (BB_middle closes i : ℝ) - 2 * BB_std closes i

/-!
Helper evaluation lemmas: each per-bar signal equals the spec-worded
geometric rule, for every bar (well-formed or not).  These are shared by
several claim theorems below.
-/

theorem doji_eval (b : Bar) :
    dojiSignal b =
      if |b.close - b.open_| ≤ 0.1 * (b.high - b.low) then 100 else 0 := by
  simp only [dojiSignal, detect_doji, decide_eq_true_eq]
  rw [abs_sub_comm]
  by_cases h : |b.close - b.open_| ≤ 0.1 * (b.high - b.low) <;> simp [h]

theorem detect_hammer_raises (o h l c : List ℚ) :
    detect_hammer o h l c = Except.error seriesBoolMsg := rfl

theorem detect_shooting_star_raises (o h l c : List ℚ) :
    detect_shooting_star o h l c = Except.error seriesBoolMsg := rfl

theorem patternColumns_raises (bars : List Bar) :
    patternColumns bars = Except.error seriesBoolMsg := rfl

theorem engulf_step_congr (o1 o2 p1 p2 : Option Bar)
    (ho : o1.map Bar.open_ = p1.map Bar.open_)
    (hc : o1.map Bar.close = p1.map Bar.close)
    (ho1 : o2.map Bar.open_ = p2.map Bar.open_)
    (hc1 : o2.map Bar.close = p2.map Bar.close) :
    engulf_step o1 o2 = engulf_step p1 p2 := by
  cases o1 <;> cases o2 <;> cases p1 <;> cases p2 <;>
    simp_all [engulf_step, engulf_pair]

/-- C1 counterexample: on a 50-bar series of flat bars (high = low = open =
close = 100; 50 bars is the app's minimum data length, line 65), pattern
detection DOES raise: the Hammer assignment at line 81 reaches builtin
`min(open_, close)` inside `detect_hammer`, whose `bool()` of a comparison
Series raises ValueError — refuting both "does not raise" and "Hammer =
ShootingStar = 0" (no signal value is produced at all). -/
theorem c1_counterexample :
    patternColumns (List.replicate 50 ⟨100, 100, 100, 100⟩) =
      Except.error seriesBoolMsg := rfl

/-- C1 (amended): for every series of bars with high = low = open = close,
pattern detection raises: line 81 applies `detect_hammer` to whole Series,
and its builtin `min`/`max` and `and` call `Series.__bool__`, which pandas
raises on unconditionally — so no Hammer or ShootingStar signal, zero or
otherwise, is ever produced for any bar. -/
theorem c1_zero_range_behavior (bars : List Bar)
    (hflat : ∀ b ∈ bars,
      b.high = b.low ∧ b.low = b.open_ ∧ b.open_ = b.close) :
    patternColumns bars = Except.error seriesBoolMsg := rfl

/-- C1 witness: the amended behaviour at a concrete one-bar flat series. -/
theorem c1_zero_range_behavior_witness :
    patternColumns [⟨7, 7, 7, 7⟩] = Except.error seriesBoolMsg :=
  c1_zero_range_behavior [⟨7, 7, 7, 7⟩] (by
    intro b hb
    rw [List.eq_of_mem_singleton hb]
    exact ⟨rfl, rfl, rfl⟩)

/-- C2 counterexample: the bar open = 10, high = 9, low = 8, close = 10
violates the invariant (max(open, close) = 10 > 9 = high), yet its Doji
signal is +100, not the claimed 0: there is no malformed-bar guard in the
code, and body = 0 ≤ 0.1 · range = 0.1. -/
theorem c2_counterexample :
    ¬ barValid ⟨10, 9, 8, 10⟩ ∧ dojiSignal ⟨10, 9, 8, 10⟩ ≠ 0 := by
  constructor
  · norm_num [barValid, max_def, min_def]
  · norm_num [dojiSignal, detect_doji, abs_eq_max_neg, max_def, min_def]

/-- C2 (amended): a bar that violates the invariant
low ≤ min(open, close) ≤ max(open, close) ≤ high does not get its signals
defaulted to 0, and detection is not crash-free either: the Doji signal
(line 80, the one column computed before the crash) follows the same
unguarded geometric formula as for well-formed bars and can be nonzero,
and the pattern block then raises ValueError at the Hammer assignment
(line 81) on every input series, so the Hammer, ShootingStar and Engulfing
columns of the bar are never produced at all. -/
theorem c2_malformed_behavior (b : Bar) (hb : ¬ barValid b)
    (bars : List Bar) :
    (dojiSignal b =
      if |b.close - b.open_| ≤ 0.1 * (b.high - b.low) then 100 else 0) ∧
    patternColumns bars = Except.error seriesBoolMsg :=
  ⟨doji_eval b, rfl⟩

/-- C2 witness: the amended behaviour at the concrete malformed bar
open = 10, high = 9, low = 8, close = 10 (body 0, range 1): its Doji signal
is +100, not 0, and the pattern block on the one-bar series raises. -/
theorem c2_malformed_behavior_witness :
    ¬ barValid ⟨10, 9, 8, 10⟩ ∧ dojiSignal ⟨10, 9, 8, 10⟩ = 100 ∧
      patternColumns [⟨10, 9, 8, 10⟩] = Except.error seriesBoolMsg := by
  have hb : ¬ barValid ⟨10, 9, 8, 10⟩ := by
    norm_num [barValid, max_def, min_def]
  obtain ⟨h1, h2⟩ := c2_malformed_behavior ⟨10, 9, 8, 10⟩ hb [⟨10, 9, 8, 10⟩]
  refine ⟨hb, ?_, h2⟩
  rw [h1]; norm_num [abs_eq_max_neg, max_def, min_def]

/-- C3: for every bar the Doji signal is +100 iff
body = |close − open| ≤ 0.1 × (high − low), and otherwise 0; in particular
the bar open = 100, high = 101, low = 99, close = 100.05 yields Doji = +100
(body 0.05 ≤ 0.2). -/
theorem c3_doji_rule :
    (∀ b : Bar,
      dojiSignal b =
        if |b.close - b.open_| ≤ 0.1 * (b.high - b.low) then 100 else 0) ∧
    dojiSignal ⟨100, 101, 99, 100.05⟩ = 100 :=
  ⟨doji_eval, by norm_num [dojiSignal, detect_doji, abs_eq_max_neg, max_def]⟩

/-- C4 (code bug): the claimed Hammer rule is the evident intent (the
docstring at app.py line 18, the spec's table, and the correctly vectorized
sibling detector `detect_bullish_engulfing`), but the code cannot produce
any Hammer signal: line 81 passes whole Series into `detect_hammer`, whose
builtin `min`/`max` (lines 21-22) and `and` (line 23) call
`Series.__bool__`, which raises ValueError.  Evaluated on 50 copies of the
claim's own example bar open = 10, high = 10.1, low = 8, close = 10.05 —
said to yield Hammer = +100 — the call raises instead. -/
theorem c4_hammer_rule :
    detect_hammer (List.replicate 50 10) (List.replicate 50 10.1)
      (List.replicate 50 8) (List.replicate 50 10.05) =
      Except.error seriesBoolMsg := rfl

/-- C5 (code bug): the claimed ShootingStar rule (−100 on the three
shadow/body conditions, else 0) is the evident intent, but
`detect_shooting_star` raises ValueError on Series input (builtin `max` and
`min` at lines 29-30, `and` at line 31), so the program never produces any
ShootingStar value; line 82 is moreover never reached, line 81 having
already raised.  Evaluated on 50 copies of a textbook shooting-star bar
open = 10, high = 12, low = 9.9, close = 10.1, the call raises. -/
theorem c5_shooting_star_rule :
    detect_shooting_star (List.replicate 50 10) (List.replicate 50 12)
      (List.replicate 50 9.9) (List.replicate 50 10.1) =
      Except.error seriesBoolMsg := rfl

/-- C6: for every series and every index k = j + 1 ≥ 1 with bars at j and
j + 1, the Engulfing signal at k is +100 iff
prevClose < prevOpen AND close > open AND open < prevClose AND
close > prevOpen (prev being the bar at j), and otherwise 0. -/
theorem c6_engulfing_rule (bars : List Bar) (j : ℕ) (prev cur : Bar)
    (hp : bars[j]? = some prev) (hc : bars[j + 1]? = some cur) :
    engulfSignal bars (j + 1) =
      if prev.close < prev.open_ ∧ cur.close > cur.open_ ∧
         cur.open_ < prev.close ∧ cur.close > prev.open_ then 100 else 0 := by
  simp only [engulfSignal, detect_bullish_engulfing, hp, hc, engulf_step,
    engulf_pair, Bool.and_eq_true, decide_eq_true_eq]
  by_cases h1 : prev.close < prev.open_ <;>
    by_cases h2 : cur.close > cur.open_ <;>
    by_cases h3 : cur.open_ < prev.close <;>
    by_cases h4 : cur.close > prev.open_ <;>
    simp [h1, h2, h3, h4]

/-- C6 witness: the spec's example — bar 0 open = 50, close = 48 (bearish),
bar 1 open = 47, close = 51 (bullish, engulfing) — yields Engulfing = +100
at index 1. -/
theorem c6_engulfing_rule_witness :
    engulfSignal [⟨50, 50, 48, 48⟩, ⟨47, 51, 46, 51⟩] 1 = 100 := by
  have h := c6_engulfing_rule [⟨50, 50, 48, 48⟩, ⟨47, 51, 46, 51⟩] 0
    ⟨50, 50, 48, 48⟩ ⟨47, 51, 46, 51⟩ rfl rfl
  norm_num at h
  exact h

/-- C7: for every input series the Engulfing signal of bar 0 is 0, and
computing it does not raise (in app.py, `shift(1)` makes the previous bar of
index 0 NaN, so every comparison there is false; in the embedding the
function is total and returns 0 at index 0 by definition). -/
theorem c7_engulfing_first_bar : ∀ bars : List Bar, engulfSignal bars 0 = 0 :=
  fun _ => rfl

/-- C8 (code bug): the four-series codomain invariant is the spec's data
model and matches the written `.astype(int) * ±100` assignments, but the
program never has four pattern series to satisfy it: the Doji column (line
80) is assigned, then line 81 raises ValueError, so the Hammer, ShootingStar
and Engulfing series are never produced.  Evaluated at a 50-bar well-formed
series (50 copies of open = 2, high = 3, low = 1, close = 2), the pattern
block raises instead of yielding four {−100, 0, 100}-valued series. -/
theorem c8_signal_codomain :
    patternColumns (List.replicate 50 ⟨2, 3, 1, 2⟩) =
      Except.error seriesBoolMsg := rfl

/-- C9: wherever the Bollinger outputs are defined (a full 20-bar window,
i.e. 19 ≤ i < length), BB_lower ≤ BB_middle ≤ BB_upper: the bands are the
moving average shifted down and up by twice the (nonnegative) rolling
population standard deviation. -/
theorem c9_bollinger_ordering (closes : List ℚ) (i : ℕ) (h19 : 19 ≤ i)
    (hlen : i < closes.length) :
    BB_lower closes i ≤ (BB_middle closes i : ℝ) ∧
      (BB_middle closes i : ℝ) ≤ BB_upper closes i := by
  have hs : (0 : ℝ) ≤ BB_std closes i := Real.sqrt_nonneg _
  constructor
  · simp only [BB_lower]
    linarith
  · simp only [BB_upper]
    linarith

/-- C9 witness: the band ordering at index 19 of a constant series of
twenty 1's. -/
theorem c9_bollinger_ordering_witness :
    BB_lower (List.replicate 20 1) 19 ≤
        (BB_middle (List.replicate 20 1) 19 : ℝ) ∧
      (BB_middle (List.replicate 20 1) 19 : ℝ) ≤
        BB_upper (List.replicate 20 1) 19 :=
  c9_bollinger_ordering (List.replicate 20 1) 19 (by decide) (by decide)

/-- C10 (implicit): the Engulfing signal ignores high and low — two series
that agree pointwise on open and close (differing arbitrarily in high and
low) yield identical Engulfing signals at every index, since
`detect_bullish_engulfing` reads only open and close of the bar and its
predecessor. -/
theorem c10_engulf_ignores_high_low (bars1 bars2 : List Bar)
    (h : ∀ k : ℕ,
      bars1[k]?.map Bar.open_ = bars2[k]?.map Bar.open_ ∧
        bars1[k]?.map Bar.close = bars2[k]?.map Bar.close) :
    ∀ k : ℕ, engulfSignal bars1 k = engulfSignal bars2 k := by
  intro k
  match k with
  | 0 => rfl
  | j + 1 =>
    obtain ⟨hoj, hcj⟩ := h j
    obtain ⟨hoj1, hcj1⟩ := h (j + 1)
    simp only [engulfSignal, detect_bullish_engulfing]
    simp only [engulf_step_congr bars1[j]? bars1[j + 1]? bars2[j]?
      bars2[j + 1]? hoj hcj hoj1 hcj1]

/-- C10 witness: two concrete two-bar series with equal opens and closes but
wildly different highs and lows produce the same Engulfing signal at
index 1. -/
theorem c10_engulf_ignores_high_low_witness :
    engulfSignal [⟨50, 50, 48, 48⟩, ⟨47, 51, 46, 51⟩] 1 =
      engulfSignal [⟨50, 1000, 0, 48⟩, ⟨47, 2000, -5, 51⟩] 1 :=
  c10_engulf_ignores_high_low _ _
    (fun k =>
      match k with
      | 0 => ⟨rfl, rfl⟩
      | 1 => ⟨rfl, rfl⟩
      | _ + 2 => ⟨rfl, rfl⟩)
    1

end TradingChart
